import Mathlib

/-!
# MegaBike — team-budget validation and roster-assignment core

Shallow embedding of the roster-validation and team-creation logic of the
Bike-Fantasy repository:

* `calcTotal`, `validate` — the client-side checks of
  `src/frontend/src/components/TeamBuilder.jsx` (`calcTotal`, `validate`,
  with `BUDGET = 11000` and `DEFAULT_SLOTS = 12`);
* `createMyTeam`, `getMyTeam` — the data-store operations of
  `src/frontend/src/services/api.js`, modelled as explicit state passing
  over a `Store` of rider / team / team_riders rows.

JavaScript numbers appearing as prices, points and costs are modelled as
`Int` (the spec fixes them to exact integers); nullable / possibly-missing
fields are modelled as `Option`.
-/

namespace BikeFantasy

/-- A rider object as it sits in a `TeamBuilder` slot (produced by
`RiderPicker` / `autocompleteRiders`): it carries an identifier, a display
name, and possibly-absent `price` and `points` fields. -/
structure SelectedRider where
  id : Option Nat
  rider_name : String
  price : Option Int
  points : Option Int
deriving DecidableEq, Repr

/-- `DEFAULT_SLOTS = 12` in `TeamBuilder.jsx`. -/
def DEFAULT_SLOTS : Nat := 12

/-- `BUDGET = 11000` in `TeamBuilder.jsx`. -/
def BUDGET : Int := 11000

/-- `calcTotal(riders)` of `TeamBuilder.jsx`: a left fold starting at `0`,
each rider contributing `r?.price ?? r?.points ?? 0`. -/
def calcTotal (riders : List SelectedRider) : Int :=
  riders.foldl (fun sum r => sum + r.price.getD (r.points.getD 0)) 0

/-- JavaScript `String.prototype.trim()`: the string with leading and
trailing whitespace characters removed. -/
def jsTrim (s : String) : String :=
  ⟨((s.data.dropWhile Char.isWhitespace).reverse.dropWhile
      Char.isWhitespace).reverse⟩

/-- The distinct failure outcomes of `validate` in `TeamBuilder.jsx`
(the source returns one distinct message string per failed check;
the budget message interpolates `Math.abs(remaining)`, carried here as
the payload of `budgetExceeded`). -/
inductive ValidationError
  | invalidName
  | incompleteRoster
  | duplicateRider
  | budgetExceeded (overage : Int)
deriving DecidableEq, Repr

/-- The display names of the slots, `slots.map((s) => s?.rider_name)`. -/
def slotNames (slots : List (Option SelectedRider)) : List (Option String) :=
  slots.map fun s => s.map fun r => r.rider_name

/-- `validate()` of `TeamBuilder.jsx`.  Checks in source order:
team-name length (after trim), completeness, display-name uniqueness
(`new Set(names).size !== names.length`, rendered as a comparison with the
deduplicated list's length), budget.  `total` is
`calcTotal(slots.filter(Boolean))` and `remaining` is `BUDGET - total`,
as computed by the component. -/
def validate (teamName : String) (slots : List (Option SelectedRider)) :
    Option ValidationError :=
  if (jsTrim teamName).length < 2 then some .invalidName
  else if slots.any fun s => s.isNone then some .incompleteRoster
  else
    let names := slotNames slots
    if names.dedup.length ≠ names.length then some .duplicateRider
    else
      let total := calcTotal (slots.filterMap id)
      if BUDGET < total then some (.budgetExceeded |BUDGET - total|) else none

/-! ### The four checks of `validate`, as standalone predicates -/

/-- Check 1 of `validate`: the trimmed team name has length ≥ 2. -/
def nameOk (teamName : String) : Bool :=
  decide (2 ≤ (jsTrim teamName).length)

/-- Check 2 of `validate`: no slot is empty. -/
def rosterComplete (slots : List (Option SelectedRider)) : Bool :=
  !(slots.any fun s => s.isNone)

/-- Check 3 of `validate`: the slot display names are pairwise distinct. -/
def namesUnique (slots : List (Option SelectedRider)) : Bool :=
  decide ((slotNames slots).dedup.length = (slotNames slots).length)

/-- Check 4 of `validate`: the summed cost is within the budget ceiling. -/
def withinBudget (slots : List (Option SelectedRider)) : Bool :=
  decide (calcTotal (slots.filterMap id) ≤ BUDGET)

/-! ## The data store of `services/api.js` -/

/-- A row of the `riders` table, with its season-scoped `rider_prices` and
`rider_points` child rows (`(season_year, value)` pairs). -/
structure RiderRow where
  id : Nat
  rider_name : String
  team_name : String
  nationality : String
  active : Bool
  rider_prices : List (Nat × Int)
  rider_points : List (Nat × Int)
deriving DecidableEq, Repr

/-- A row of the `teams` table. -/
structure TeamRow where
  id : Nat
  user_id : String
  team_name : String
  season_year : Nat
  total_cost : Int
  points : Int
deriving DecidableEq, Repr

/-- A row of the `team_riders` table (a roster slot).  `rider_id` is an
`Option` because `createMyTeam` builds the row from `r.id`, which the
payload may lack. -/
structure TeamRiderRow where
  team_id : Nat
  rider_id : Option Nat
  slot : Nat
deriving DecidableEq, Repr

/-- The data store visible to `api.js`: the three tables, insertion-ordered,
plus the id the next `teams` insert will be assigned. -/
structure Store where
  riders : List RiderRow
  teams : List TeamRow
  team_riders : List TeamRiderRow
  nextTeamId : Nat
deriving DecidableEq, Repr

/-- One entry of `payload.riders` as sent by `TeamBuilder`
(`{ id, rider_name }`, the id possibly missing). -/
structure RiderRef where
  id : Option Nat
  rider_name : String
deriving DecidableEq, Repr

/-- The payload `TeamBuilder` submits: `{ teamName, riders }`. -/
structure Payload where
  teamName : String
  riders : List RiderRef
deriving DecidableEq, Repr

/-- Storage-level failures surfaced (thrown) by `createMyTeam`:
`conflict` is the unique-constraint violation on the `teams` insert,
`storageFault` an injected fault on the `team_riders` bulk insert,
`notNull` the `team_riders` insert failing because some `rider_id` is
still missing (the source comments: "If r.id is missing, this will
fail."). -/
inductive ApiError
  | conflict
  | storageFault
  | notNull
deriving DecidableEq, Repr

/-- `.from("riders').select("id").eq("rider_name", name).maybeSingle()`:
data is the row when exactly one row matches, and null otherwise. -/
def lookupRiderByName (s : Store) (name : String) : Option RiderRow :=
  match s.riders.filter fun r => r.rider_name == name with
  | [r] => some r
  | _ => none

/-- The id `createMyTeam` puts in a slot row: `r.id` when present, else the
fallback name lookup performed by the loop over `riderInserts`. -/
def resolveRiderId (s : Store) (r : RiderRef) : Option Nat :=
  match r.id with
  | some i => some i
  | none => (lookupRiderByName s r.rider_name).map fun rr => rr.id

/-- The `riderInserts` array of `createMyTeam`:
`payload.riders.map((r, idx) => ({ team_id, rider_id: r.id, slot: idx + 1 }))`
followed by the loop that fills a missing `rider_id` by name lookup. -/
def mkRiderInserts (s : Store) (teamId : Nat) (refs : List RiderRef) :
    List TeamRiderRow :=
  refs.enum.map fun q =>
    { team_id := teamId, rider_id := resolveRiderId s q.2, slot := q.1 + 1 }

/-- `createMyTeam(payload)` of `services/api.js`, with the caller identity
(`jwt.sub`) passed explicitly and a Boolean fault injected at the
`team_riders` bulk insert to model a storage failure there.  The season is
NOT a parameter: the source fixes `const season = 2025`.  Steps, in source
order: insert the `teams` row (with `total_cost: 0` and `points: 0`), then
build `riderInserts` with `slot: idx + 1` in payload order, resolving
missing ids by name lookup, then bulk-insert the slot rows.  No step rolls
back an earlier one.  The result is the thrown error or the created row,
paired with the post-state of the store.

Modelled from the spec: the uniqueness constraint on
`(user_id, season_year)` enforced at the storage boundary (spec §4.2
step 3 / §6 — the database schema is not part of the sources), which makes
the `teams` insert fail with a `conflict` when a row for that user and
season already exists. -/
def createMyTeam (userId : String) (payload : Payload) (slotInsertFault : Bool)
    (s : Store) : Except ApiError TeamRow × Store :=
  let season : Nat := 2025
  if s.teams.any fun t => t.user_id == userId && t.season_year == season then
    (.error .conflict, s)
  else
    let team : TeamRow :=
      { id := s.nextTeamId, user_id := userId, team_name := payload.teamName,
        season_year := season, total_cost := 0, points := 0 }
    let s1 : Store := { s with teams := s.teams ++ [team],
                               nextTeamId := s.nextTeamId + 1 }
    let riderInserts : List TeamRiderRow := mkRiderInserts s1 team.id payload.riders
    if slotInsertFault then (.error .storageFault, s1)
    else if riderInserts.any fun ins => ins.rider_id.isNone then
      (.error .notNull, s1)
    else (.ok team, { s1 with team_riders := s1.team_riders ++ riderInserts })

/-- One element of the `riders` array returned by `getMyTeam`. -/
structure RiderView where
  id : Nat
  rider_name : String
  team_name : String
  nationality : String
  active : Bool
  price : Int
  points : Int
deriving DecidableEq, Repr

/-- The value `getMyTeam` resolves to (when a team exists). -/
structure TeamView where
  id : Nat
  teamName : String
  totalPrice : Int
  points : Int
  riders : List RiderView
deriving DecidableEq, Repr

/-- `r.rider_prices?.find(p => p.season_year === season)`, defaulting to 0. -/
def seasonPrice (r : RiderRow) (season : Nat) : Int :=
  match r.rider_prices.find? fun p => p.1 == season with
  | some p => p.2
  | none => 0

/-- `r.rider_points?.find(p => p.season_year === season)`, defaulting to 0. -/
def seasonPoints (r : RiderRow) (season : Nat) : Int :=
  match r.rider_points.find? fun p => p.1 == season with
  | some p => p.2
  | none => 0

/-- `getMyTeam()` of `services/api.js`: `maybeSingle()` over the `teams`
rows for `(userId, season 2025)`, then the `team_riders` rows of that team
joined with their `riders` row, mapped to the frontend shape.  The read
reports `totalPrice: team.total_cost` and flattens the season-2025 price
and points of each rider. -/
def getMyTeam (userId : String) (s : Store) : Option TeamView :=
  let season : Nat := 2025
  match s.teams.filter fun t => t.user_id == userId && t.season_year == season with
  | [team] =>
    let teamRiders := s.team_riders.filter fun tr => tr.team_id == team.id
    some { id := team.id, teamName := team.team_name,
           totalPrice := team.total_cost, points := team.points,
           riders := teamRiders.filterMap fun tr =>
             (tr.rider_id.bind fun rid =>
                 s.riders.find? fun r => r.id == rid).map fun r =>
               { id := r.id, rider_name := r.rider_name,
                 team_name := r.team_name, nationality := r.nationality,
                 active := r.active, price := seasonPrice r season,
                 points := seasonPoints r season } }
  | _ => none

/-- Number of `teams` rows for a given user in season 2025. -/
def teamCount (s : Store) (userId : String) : Nat :=
  (s.teams.filter fun t => t.user_id == userId && t.season_year == 2025).length

/-! ## Concrete data used to exercise the operations -/

/-- A rider row named `R<i>` with a season-2025 price. -/
def demoRider (i : Nat) (price : Int) : RiderRow :=
  { id := i, rider_name := "R" ++ toString i, team_name := "T",
    nationality := "BE", active := true, rider_prices := [(2025, price)],
    rider_points := [] }

/-- Twelve riders `R1 .. R12`, each priced 900 for season 2025. -/
def demoRiders : List RiderRow :=
  (List.range DEFAULT_SLOTS).map fun i => demoRider (i + 1) 900

/-- A store holding only the twelve demo riders. -/
def demoStore : Store :=
  { riders := demoRiders, teams := [], team_riders := [], nextTeamId := 1 }

/-- Payload entries `{ id: i, rider_name: "R<i>" }` for `i = 1 .. 12`. -/
def demoRefs : List RiderRef :=
  (List.range DEFAULT_SLOTS).map fun i =>
    { id := some (i + 1), rider_name := "R" ++ toString (i + 1) }

/-- A fully resolved, budget-respecting payload. -/
def demoPayload : Payload := { teamName := "Alpha", riders := demoRefs }

/-- The `teams` row `createMyTeam` inserts for `demoPayload` on
`demoStore`. -/
def demoTeamRow : TeamRow :=
  { id := 1, user_id := "u1", team_name := "Alpha", season_year := 2025,
    total_cost := 0, points := 0 }

/-- The slot value for rider `R<i>`, priced as given. -/
def demoSelected (i : Nat) (price : Int) : SelectedRider :=
  { id := some i, rider_name := "R" ++ toString i, price := some price,
    points := none }

/-- Twelve filled slots `R1 .. R12`, each priced 900 (total 10800). -/
def demoSlots : List (Option SelectedRider) :=
  (List.range DEFAULT_SLOTS).map fun i => some (demoSelected (i + 1) 900)

/-- Twelve filled slots each priced 1000 (total 12000, over budget). -/
def overSlots : List (Option SelectedRider) :=
  (List.range DEFAULT_SLOTS).map fun i => some (demoSelected (i + 1) 1000)

/-- Eleven filled slots and one empty slot. -/
def partialSlots : List (Option SelectedRider) := demoSlots.take 11 ++ [none]

/-- Twelve filled slots in which the first two riders carry different
identifiers but the same display name. -/
def dupSlots : List (Option SelectedRider) :=
  some { id := some 1, rider_name := "J. Smith", price := some 100,
         points := none } ::
  some { id := some 99, rider_name := "J. Smith", price := some 200,
         points := none } ::
  ((List.range 10).map fun i => some (demoSelected (i + 3) 900))

/-- A payload whose last entry carries no id and a display name, `Ghost`,
that matches no rider row. -/
def ghostPayload : Payload :=
  { teamName := "Alpha",
    riders := demoRefs.take 11 ++ [{ id := none, rider_name := "Ghost" }] }

/-- `demoStore` with a team already created for user `u1` in season
2025. -/
def oneTeamStore : Store :=
  { riders := demoRiders, teams := [demoTeamRow], team_riders := [],
    nextTeamId := 2 }

/-! ## Helper lemmas -/

/-- `new Set(l).size === l.length` (the deduplicated length equalling the
length) holds exactly when `l` has no duplicates. -/
theorem dedup_length_eq_iff {α : Type _} [DecidableEq α] (l : List α) :
    l.dedup.length = l.length ↔ l.Nodup := by
  constructor
  · intro h
    have he : l.dedup = l := l.dedup_sublist.eq_of_length h
    simpa [he] using l.nodup_dedup
  · intro h
    rw [List.dedup_eq_self.mpr h]

/-- If no element of a list of options is `none`, dropping the `Option`
wrapper preserves the length. -/
theorem length_filterMap_id_of_no_none {α : Type _} (l : List (Option α))
    (h : (l.any fun s => s.isNone) = false) :
    (l.filterMap id).length = l.length := by
  induction l with
  | nil => rfl
  | cons a t ih =>
    simp only [List.any_cons, Bool.or_eq_false_iff] at h
    cases a with
    | none => simp at h
    | some x => simp [List.filterMap_cons, ih h.2]

/-! ## Claims about `validate` -/

/-- **C7.** `validate` performs its checks in the fixed order
name-validity, completeness, rider-uniqueness, budget, short-circuiting on
the first failure: for every input the result is the error of the earliest
failing check (later checks cannot affect it), and `none` when all four
checks pass. -/
theorem validate_checks_in_order (tn : String)
    (slots : List (Option SelectedRider)) :
    (nameOk tn = false → validate tn slots = some .invalidName) ∧
    (nameOk tn = true → rosterComplete slots = false →
      validate tn slots = some .incompleteRoster) ∧
    (nameOk tn = true → rosterComplete slots = true →
      namesUnique slots = false → validate tn slots = some .duplicateRider) ∧
    (nameOk tn = true → rosterComplete slots = true →
      namesUnique slots = true → withinBudget slots = false →
      validate tn slots =
        some (.budgetExceeded |BUDGET - calcTotal (slots.filterMap id)|)) ∧
    (nameOk tn = true → rosterComplete slots = true →
      namesUnique slots = true → withinBudget slots = true →
      validate tn slots = none) := by
  refine ⟨?_, ?_, ?_, ?_, ?_⟩
  · intro h
    simp only [nameOk, decide_eq_false_iff_not, not_le] at h
    simp [validate, h]
  · intro h1 h2
    simp only [nameOk, decide_eq_true_eq] at h1
    simp only [rosterComplete, Bool.not_eq_false'] at h2
    simp [validate, Nat.not_lt.mpr h1, h2]
  · intro h1 h2 h3
    simp only [nameOk, decide_eq_true_eq] at h1
    simp only [rosterComplete, Bool.not_eq_true'] at h2
    simp only [namesUnique, decide_eq_false_iff_not] at h3
    simp [validate, Nat.not_lt.mpr h1, h2, h3]
  · intro h1 h2 h3 h4
    simp only [nameOk, decide_eq_true_eq] at h1
    simp only [rosterComplete, Bool.not_eq_true'] at h2
    simp only [namesUnique, decide_eq_true_eq] at h3
    simp only [withinBudget, decide_eq_false_iff_not, not_le] at h4
    simp [validate, Nat.not_lt.mpr h1, h2, h3, h4]
  · intro h1 h2 h3 h4
    simp only [nameOk, decide_eq_true_eq] at h1
    simp only [rosterComplete, Bool.not_eq_true'] at h2
    simp only [namesUnique, decide_eq_true_eq] at h3
    simp only [withinBudget, decide_eq_true_eq] at h4
    simp [validate, Nat.not_lt.mpr h1, h2, h3, Int.not_lt.mpr h4]

/-- **C5.** For a roster that reaches the budget check (name, completeness
and uniqueness checks pass), a summed cost — each rider contributing its
price, falling back to its points, falling back to 0 — strictly above the
ceiling 11000 makes `validate` fail with `budgetExceeded` carrying exactly
`sum - ceiling`; and on any input whose summed cost is within the ceiling,
`validate` never fails with `budgetExceeded`. -/
theorem validate_budget_exact_overage (tn tn2 : String)
    (slots slots2 : List (Option SelectedRider))
    (h1 : nameOk tn = true) (h2 : rosterComplete slots = true)
    (h3 : namesUnique slots = true) :
    (BUDGET < calcTotal (slots.filterMap id) →
      validate tn slots =
        some (.budgetExceeded (calcTotal (slots.filterMap id) - BUDGET))) ∧
    (calcTotal (slots2.filterMap id) ≤ BUDGET →
      ∀ o : Int, validate tn2 slots2 ≠ some (.budgetExceeded o)) := by
  constructor
  · intro hlt
    simp only [nameOk, decide_eq_true_eq] at h1
    simp only [rosterComplete, Bool.not_eq_true'] at h2
    simp only [namesUnique, decide_eq_true_eq] at h3
    have habs : |BUDGET - calcTotal (slots.filterMap id)| =
        calcTotal (slots.filterMap id) - BUDGET := by
      rw [abs_sub_comm]
      exact abs_of_nonneg (sub_nonneg.mpr (le_of_lt hlt))
    simp [validate, Nat.not_lt.mpr h1, h2, h3, hlt, habs]
  · intro hle o
    by_cases hA : (jsTrim tn2).length < 2
    · simp [validate, hA]
    · by_cases hB : (slots2.any fun s => s.isNone) = true
      · simp [validate, hA, hB]
      · by_cases hC : (slotNames slots2).dedup.length = (slotNames slots2).length
        · simp [validate, hA, hB, hC, Int.not_lt.mpr hle]
        · simp [validate, hA, hB, hC]

/-- **C6.** For a roster that reaches the uniqueness check (name and
completeness checks pass), two distinct slots holding riders with the same
display name make `validate` fail with `duplicateRider` — regardless of the
riders' identifiers, which the check never consults. -/
theorem validate_duplicate_display_name (tn : String)
    (slots : List (Option SelectedRider))
    (h1 : nameOk tn = true) (h2 : rosterComplete slots = true)
    (i j : Nat) (hi : i < slots.length) (hj : j < slots.length) (hij : i ≠ j)
    (ri rj : SelectedRider)
    (hri : slots.get ⟨i, hi⟩ = some ri) (hrj : slots.get ⟨j, hj⟩ = some rj)
    (hname : ri.rider_name = rj.rider_name) :
    validate tn slots = some .duplicateRider := by
  simp only [nameOk, decide_eq_true_eq] at h1
  simp only [rosterComplete, Bool.not_eq_true'] at h2
  have hi2 : i < (slotNames slots).length := by simpa [slotNames] using hi
  have hj2 : j < (slotNames slots).length := by simpa [slotNames] using hj
  rw [List.get_eq_getElem] at hri hrj
  have hgi : (slotNames slots).get ⟨i, hi2⟩ = some ri.rider_name := by
    rw [List.get_eq_getElem]
    simp only [slotNames, List.getElem_map]
    rw [hri]
    rfl
  have hgj : (slotNames slots).get ⟨j, hj2⟩ = some rj.rider_name := by
    rw [List.get_eq_getElem]
    simp only [slotNames, List.getElem_map]
    rw [hrj]
    rfl
  have hnodup : ¬ (slotNames slots).Nodup := by
    intro hn
    have heq : (slotNames slots).get ⟨i, hi2⟩ = (slotNames slots).get ⟨j, hj2⟩ := by
      rw [hgi, hgj, hname]
    have := hn.get_inj_iff.mp heq
    simp only [Fin.mk.injEq] at this
    exact hij this
  have hC : (slotNames slots).dedup.length ≠ (slotNames slots).length := by
    intro h
    exact hnodup ((dedup_length_eq_iff _).mp h)
  simp [validate, Nat.not_lt.mpr h1, h2, hC]

/-- **C8.** For a roster of the fixed `DEFAULT_SLOTS = 12` slots in which
fewer than 12 are filled (and whose team name passes the first check),
`validate` fails with `incompleteRoster`. -/
theorem validate_incomplete_below_N (tn : String)
    (slots : List (Option SelectedRider))
    (h1 : nameOk tn = true) (hN : slots.length = DEFAULT_SLOTS)
    (hfew : (slots.filterMap id).length < DEFAULT_SLOTS) :
    validate tn slots = some .incompleteRoster := by
  simp only [nameOk, decide_eq_true_eq] at h1
  simp only [DEFAULT_SLOTS] at hN hfew
  have hsome : (slots.any fun s => s.isNone) = true := by
    by_contra hc
    rw [Bool.not_eq_true] at hc
    have := length_filterMap_id_of_no_none slots hc
    omega
  simp [validate, Nat.not_lt.mpr h1, hsome]

/-! ## Claims about `createMyTeam` / `getMyTeam` -/

/-- The `teams` table after a `createMyTeam` run: unchanged on a conflict,
and extended by the freshly inserted row in every other outcome — the Team
insert happens first and no later step rolls it back. -/
theorem createMyTeam_teams_eq (u : String) (p : Payload) (f : Bool)
    (s : Store) :
    ((createMyTeam u p f s).2).teams =
      if s.teams.any fun t => t.user_id == u && t.season_year == 2025 then
        s.teams
      else
        s.teams ++ [{ id := s.nextTeamId, user_id := u,
                      team_name := p.teamName, season_year := 2025,
                      total_cost := 0, points := 0 }] := by
  by_cases h : (s.teams.any fun t => t.user_id == u && t.season_year == 2025) = true
  · simp [createMyTeam, h]
  · rw [Bool.not_eq_true] at h
    rw [if_neg (by simp [h])]
    unfold createMyTeam
    rw [if_neg (by simp [h])]
    dsimp only
    split
    · rfl
    · split <;> rfl

/-- **C3.** At most one Team per `(userId, season)`: when a Team row for
that user and season 2025 already exists, `createMyTeam` fails with the
uniqueness-constraint `conflict` and leaves the store untouched; and the
invariant "at most one Team row per user in season 2025" is preserved by
every `createMyTeam` call, hence holds along every sequence of calls. -/
theorem createMyTeam_one_team_per_user_season (u u2 : String) (p : Payload)
    (f : Bool) (s : Store) :
    ((∃ t ∈ s.teams, t.user_id = u ∧ t.season_year = 2025) →
      (createMyTeam u p f s).1 = .error .conflict ∧
      (createMyTeam u p f s).2 = s) ∧
    (teamCount s u ≤ 1 → teamCount ((createMyTeam u2 p f s).2) u ≤ 1) := by
  constructor
  · rintro ⟨t, ht, hu, hs⟩
    have hany :
        (s.teams.any fun t => t.user_id == u && t.season_year == 2025) = true :=
      List.any_eq_true.mpr ⟨t, ht, by simp [hu, hs]⟩
    constructor <;> simp [createMyTeam, hany]
  · intro hle
    unfold teamCount at hle ⊢
    rw [createMyTeam_teams_eq]
    by_cases h :
        (s.teams.any fun t => t.user_id == u2 && t.season_year == 2025) = true
    · rw [if_pos h]
      exact hle
    · rw [Bool.not_eq_true] at h
      rw [if_neg (by simp [h]), List.filter_append, List.length_append]
      by_cases huu : u2 = u
      · subst huu
        have hzero :
            (s.teams.filter fun t => t.user_id == u2 && t.season_year == 2025) =
              [] := by
          rw [List.filter_eq_nil_iff]
          intro a ha
          have := List.any_eq_false.mp h a ha
          simp only [this]
          exact Bool.false_ne_true
        rw [hzero]
        have hone := List.length_filter_le
          (fun t : TeamRow => t.user_id == u2 && t.season_year == 2025)
          [{ id := s.nextTeamId, user_id := u2, team_name := p.teamName,
             season_year := 2025, total_cost := 0, points := 0 }]
        simp only [List.length_nil, Nat.zero_add]
        exact le_trans hone (by simp)
      · have hnew :
            (List.filter (fun t : TeamRow => t.user_id == u && t.season_year == 2025)
              [{ id := s.nextTeamId, user_id := u2, team_name := p.teamName,
                 season_year := 2025, total_cost := 0, points := 0 }]) = [] := by
          simp [huu]
        rw [hnew]
        simpa using hle

/-- **C10.** Every `teams` row that a `createMyTeam` run adds to the store
has `season_year = 2025` and `points = 0` (and `total_cost = 0`), whatever
the payload: the season is a constant inside the function, not a
parameter. -/
theorem createMyTeam_fixed_season_and_zero_points (u : String) (p : Payload)
    (f : Bool) (s : Store) (t : TeamRow)
    (ht : t ∈ ((createMyTeam u p f s).2).teams) :
    t ∈ s.teams ∨ (t.season_year = 2025 ∧ t.points = 0 ∧ t.total_cost = 0) := by
  rw [createMyTeam_teams_eq] at ht
  split at ht
  · exact Or.inl ht
  · rcases List.mem_append.mp ht with h | h
    · exact Or.inl h
    · right
      simp only [List.mem_singleton] at h
      subst h
      exact ⟨rfl, rfl, rfl⟩

/-- When a rider entry already carries an id, the fallback lookup is not
consulted. -/
theorem resolveRiderId_of_isSome (s : Store) (r : RiderRef)
    (h : r.id.isSome) : resolveRiderId s r = r.id := by
  cases hr : r.id with
  | some k => simp [resolveRiderId, hr]
  | none => rw [hr] at h; simp at h

theorem mkRiderInserts_length (s : Store) (tid : Nat) (refs : List RiderRef) :
    (mkRiderInserts s tid refs).length = refs.length := by
  simp [mkRiderInserts]

theorem mkRiderInserts_get (s : Store) (tid : Nat) (refs : List RiderRef)
    (i : Nat) (hi : i < refs.length)
    (hi2 : i < (mkRiderInserts s tid refs).length) :
    (mkRiderInserts s tid refs).get ⟨i, hi2⟩ =
      { team_id := tid, rider_id := resolveRiderId s (refs.get ⟨i, hi⟩),
        slot := i + 1 } := by
  simp [mkRiderInserts, List.get_eq_getElem, List.getElem_map,
    List.getElem_enum]

theorem mkRiderInserts_any_isNone_eq_false {s : Store} {tid : Nat}
    {refs : List RiderRef} (hids : ∀ r ∈ refs, r.id.isSome) :
    ((mkRiderInserts s tid refs).any fun x => x.rider_id.isNone) = false := by
  rw [List.any_eq_false]
  intro x hx
  simp only [mkRiderInserts, List.mem_map] at hx
  obtain ⟨q, hq, rfl⟩ := hx
  have hq2 : q.2 ∈ refs := by
    rcases q with ⟨n, r⟩
    exact List.getElem?_mem (List.mk_mem_enum_iff_getElem?.mp hq)
  obtain ⟨k, hk⟩ := Option.isSome_iff_exists.mp (hids q.2 hq2)
  simp [resolveRiderId, hk]

/-- **C9.** On a successful run (no existing team, no fault, all entries
carrying an id), `createMyTeam` appends exactly one `team_riders` row per
input entry, in input order, numbered `slot = 1..N`, each carrying that
entry's rider identifier — no reordering and no deduplication. -/
theorem createMyTeam_slot_assignment (u : String) (p : Payload) (s : Store)
    (hfree :
      (s.teams.any fun t => t.user_id == u && t.season_year == 2025) = false)
    (hids : ∀ r ∈ p.riders, r.id.isSome) :
    (∃ t, (createMyTeam u p false s).1 = .ok t) ∧
    (((createMyTeam u p false s).2).team_riders.drop
        s.team_riders.length).length = p.riders.length ∧
    ∀ i (hi : i < p.riders.length)
      (hi2 : i < (((createMyTeam u p false s).2).team_riders.drop
          s.team_riders.length).length),
      ((((createMyTeam u p false s).2).team_riders.drop
          s.team_riders.length).get ⟨i, hi2⟩).slot = i + 1 ∧
      ((((createMyTeam u p false s).2).team_riders.drop
          s.team_riders.length).get ⟨i, hi2⟩).rider_id =
        (p.riders.get ⟨i, hi⟩).id := by
  unfold createMyTeam
  rw [if_neg (by simp [hfree])]
  dsimp only
  rw [if_neg Bool.false_ne_true,
    if_neg (by rw [mkRiderInserts_any_isNone_eq_false hids]; simp)]
  dsimp only
  rw [List.drop_left]
  refine ⟨⟨_, rfl⟩, mkRiderInserts_length _ _ _, ?_⟩
  intro i hi hi2
  rw [mkRiderInserts_get _ _ _ i hi hi2]
  exact ⟨rfl, resolveRiderId_of_isSome _ _
    (hids _ (List.get_mem p.riders i hi))⟩

/-- **C1.** Team creation is not atomic: a storage fault at the
`team_riders` bulk insert (after the `teams` insert succeeded) leaves the
Team row for `(u1, 2025)` persisted with zero slot rows — the store is not
as it was before the attempt. -/
theorem createMyTeam_slot_fault_keeps_team_row :
    (createMyTeam "u1" demoPayload true demoStore).1 = .error .storageFault ∧
    ((createMyTeam "u1" demoPayload true demoStore).2).teams = [demoTeamRow] ∧
    ((createMyTeam "u1" demoPayload true demoStore).2).team_riders = [] := by
  refine ⟨rfl, by decide, rfl⟩

/-- **C2.** When an entry lacks an id and its display name (`Ghost`)
matches no rider row, `createMyTeam` does not fail before writing: the
Team row is persisted, and only the `team_riders` insert then fails (with a
storage-level missing-id error, not an `UnresolvedRider` value) — partial
state remains. -/
theorem createMyTeam_unresolved_rider_keeps_team_row :
    (createMyTeam "u1" ghostPayload false demoStore).1 = .error .notNull ∧
    ((createMyTeam "u1" ghostPayload false demoStore).2).teams =
      [demoTeamRow] ∧
    ((createMyTeam "u1" ghostPayload false demoStore).2).team_riders = [] := by
  refine ⟨rfl, by decide, by decide⟩

/-- **C4.** The round trip through `createMyTeam` and `getMyTeam` preserves
slot order and rider identifiers but NOT the total cost: `validate`
computes 10800 for the demo roster, yet the stored and re-read `totalPrice`
is the hard-coded `total_cost: 0`. -/
theorem roundtrip_total_cost_is_zero :
    validate "Alpha" demoSlots = none ∧
    calcTotal (demoSlots.filterMap id) = 10800 ∧
    ((getMyTeam "u1" ((createMyTeam "u1" demoPayload false demoStore).2)).map
        fun v => v.totalPrice) = some 0 ∧
    ((getMyTeam "u1" ((createMyTeam "u1" demoPayload false demoStore).2)).map
        fun v => v.riders.map fun r => r.id) =
      some [1, 2, 3, 4, 5, 6, 7, 8, 9, 10, 11, 12] := by
  refine ⟨by decide, by decide, by decide, by decide⟩

/-! ## Witnesses -/

/-- Witness for C3 at a concrete store that already holds a team for
`(u1, 2025)`: the second attempt by `u1` is a conflict leaving the store
unchanged, and a call by another user keeps `u1`'s team count at one. -/
theorem createMyTeam_one_team_per_user_season_witness :
    ((createMyTeam "u1" demoPayload false oneTeamStore).1 =
        .error .conflict ∧
      (createMyTeam "u1" demoPayload false oneTeamStore).2 = oneTeamStore) ∧
    teamCount ((createMyTeam "u2" demoPayload false oneTeamStore).2) "u1" ≤ 1 :=
  ⟨(createMyTeam_one_team_per_user_season "u1" "u2" demoPayload false
      oneTeamStore).1 ⟨demoTeamRow, by decide, rfl, rfl⟩,
   (createMyTeam_one_team_per_user_season "u1" "u2" demoPayload false
      oneTeamStore).2 (by decide)⟩

/-- Witness for C5: twelve 1000-priced riders (total 12000) fail with
overage exactly 1000; the 10800 demo roster never triggers the budget
error. -/
theorem validate_budget_exact_overage_witness :
    nameOk "Alpha" = true ∧ rosterComplete overSlots = true ∧
    namesUnique overSlots = true ∧
    validate "Alpha" overSlots = some (.budgetExceeded 1000) ∧
    validate "Beta" demoSlots ≠ some (.budgetExceeded 0) := by
  refine ⟨by decide, by decide, by decide, ?_, ?_⟩
  · exact ((validate_budget_exact_overage "Alpha" "Beta" overSlots demoSlots
      (by decide) (by decide) (by decide)).1 (by decide)).trans (by decide)
  · exact (validate_budget_exact_overage "Alpha" "Beta" overSlots demoSlots
      (by decide) (by decide) (by decide)).2 (by decide) 0

/-- Witness for C6: two slots named `J. Smith` with different ids (1 and
99) are rejected as duplicates. -/
theorem validate_duplicate_display_name_witness :
    nameOk "Alpha" = true ∧ rosterComplete dupSlots = true ∧
    validate "Alpha" dupSlots = some .duplicateRider := by
  refine ⟨by decide, by decide, ?_⟩
  exact validate_duplicate_display_name "Alpha" dupSlots (by decide)
    (by decide) 0 1 (by decide) (by decide) (by decide)
    { id := some 1, rider_name := "J. Smith", price := some 100,
      points := none }
    { id := some 99, rider_name := "J. Smith", price := some 200,
      points := none }
    (by decide) (by decide) rfl

/-- Witness for C7: a one-character team name fails the first check on an
otherwise valid roster, and a fully valid input passes all four checks. -/
theorem validate_checks_in_order_witness :
    nameOk "x" = false ∧ validate "x" demoSlots = some .invalidName ∧
    validate "Alpha" demoSlots = none := by
  refine ⟨by decide, ?_, ?_⟩
  · exact (validate_checks_in_order "x" demoSlots).1 (by decide)
  · exact (validate_checks_in_order "Alpha" demoSlots).2.2.2.2
      (by decide) (by decide) (by decide) (by decide)

/-- Witness for C8: eleven filled slots out of twelve are an incomplete
roster. -/
theorem validate_incomplete_below_N_witness :
    nameOk "Alpha" = true ∧ partialSlots.length = DEFAULT_SLOTS ∧
    (partialSlots.filterMap id).length < DEFAULT_SLOTS ∧
    validate "Alpha" partialSlots = some .incompleteRoster :=
  ⟨by decide, by decide, by decide,
   validate_incomplete_below_N "Alpha" partialSlots (by decide) (by decide)
     (by decide)⟩

/-- Witness for C9 on the demo payload: the run succeeds and appends twelve
slot rows, in input order, numbered 1..12 with the input entries' ids. -/
theorem createMyTeam_slot_assignment_witness :
    (demoStore.teams.any fun t =>
        t.user_id == "u1" && t.season_year == 2025) = false ∧
    ((∃ t, (createMyTeam "u1" demoPayload false demoStore).1 = .ok t) ∧
     (((createMyTeam "u1" demoPayload false demoStore).2).team_riders.drop
        demoStore.team_riders.length).length = demoPayload.riders.length ∧
     ∀ i (hi : i < demoPayload.riders.length)
       (hi2 : i < (((createMyTeam "u1" demoPayload false
           demoStore).2).team_riders.drop
           demoStore.team_riders.length).length),
       ((((createMyTeam "u1" demoPayload false demoStore).2).team_riders.drop
           demoStore.team_riders.length).get ⟨i, hi2⟩).slot = i + 1 ∧
       ((((createMyTeam "u1" demoPayload false demoStore).2).team_riders.drop
           demoStore.team_riders.length).get ⟨i, hi2⟩).rider_id =
         (demoPayload.riders.get ⟨i, hi⟩).id) :=
  ⟨by decide,
   createMyTeam_slot_assignment "u1" demoPayload demoStore (by decide)
     (by decide)⟩

/-- Witness for C10: the row inserted by a faulting run for `u1` was not in
the store before and has season 2025 and zero points. -/
theorem createMyTeam_fixed_season_and_zero_points_witness :
    demoTeamRow ∈ ((createMyTeam "u1" demoPayload true demoStore).2).teams ∧
    (demoTeamRow ∈ demoStore.teams ∨
      (demoTeamRow.season_year = 2025 ∧ demoTeamRow.points = 0 ∧
        demoTeamRow.total_cost = 0)) :=
  ⟨by decide,
   createMyTeam_fixed_season_and_zero_points "u1" demoPayload true demoStore
     demoTeamRow (by decide)⟩

end BikeFantasy
